import Mathlib

/-!
Verification of the rust-openssl adapter layer (CMS, DSA, X.509 store,
socket-select shim) against its natural-language specification.

The Rust sources are shallowly embedded: raw native pointers become natural
numbers with `0` as NULL, native (foreign) calls become explicit oracle
parameters recording the value the native library returned, machine integers
become `Nat`/`Int` with explicit `% 2^w` where wraparound matters, and
fallible operations return `Except ErrorStack`.
-/

set_option autoImplicit false

namespace RustOpenSSL

/-- A raw native pointer, modelled as a natural number; `0` is the NULL
pointer. -/
abbrev Ptr := Nat

/-- The structured error channel of the wrapper layer (the crate's
`error::ErrorStack`); the claims only depend on its presence, not its
contents, so a single numeric code field suffices. -/
structure ErrorStack where
  code : Nat
deriving DecidableEq, Repr

/-- Modelled from the spec: the crate-root helper `cvt` (declared in the
crate root, which is not among the sources at hand) translates a native
integer return code into the structured error channel: a non-positive code
becomes a propagated `Err(ErrorStack)`, a positive code is passed through as
success. -/
def cvt (r : Int) : Except ErrorStack Int :=
  if r ≤ 0 then Except.error ⟨0⟩ else Except.ok r

/-- Modelled from the spec: the crate-root helper `cvt_p` (declared in the
crate root, which is not among the sources at hand) translates a native
pointer return into the structured error channel: a NULL pointer becomes a
propagated `Err(ErrorStack)`, a non-null pointer is passed through as
success. -/
def cvt_p (r : Ptr) : Except ErrorStack Ptr :=
  if r = 0 then Except.error ⟨0⟩ else Except.ok r

/-- Rust's `as u32` cast on a C `int`, modelled on `Int`: two's-complement
truncation to 32 bits. -/
def u32_of_int (i : Int) : Nat :=
  (i % (2 : Int) ^ 32).toNat

/-- Rust's `as usize` cast on a C `int` on a 64-bit target: two's-complement
truncation (sign extension then reinterpretation) to 64 bits. -/
def usize_of_int (i : Int) : Nat :=
  (i % (2 : Int) ^ 64).toNat

/-! ## DSA adapter (`src/openssl/src/dsa.rs`)

The native `ffi::DSA` structure is opaque to the wrapper; the wrapper only
observes its five BIGNUM component pointers (through `DSA_get0_pqg` and
`DSA_get0_key`).  A BIGNUM pointer is modelled as `Option Nat`: `none` is
NULL, `some v` is a non-null pointer to the value `v`. -/

/-- Model of the native `ffi::DSA` object as observed by the wrapper: the
parameter components `p`, `q`, `g` and the key components `pub_key`,
`priv_key`, each a possibly-NULL BIGNUM pointer. -/
structure DSA where
  p : Option Nat
  q : Option Nat
  g : Option Nat
  pub_key : Option Nat
  priv_key : Option Nat
deriving DecidableEq, Repr

namespace compat

/-- `compat::pqg`: returns the three parameter pointers of a DSA object as a
three-element array (via `DSA_get0_pqg`). -/
def pqg (d : DSA) : List (Option Nat) :=
  [d.p, d.q, d.g]

/-- `compat::keys`: returns the public- and private-key pointers of a DSA
object as a two-element array (via `DSA_get0_key`). -/
def keys (d : DSA) : List (Option Nat) :=
  [d.pub_key, d.priv_key]

end compat

namespace DsaRef

/-- `DsaRef::p`: reads slot 0 of `compat::pqg` and returns `None` for a NULL
pointer, otherwise `Some` of the pointed-to BIGNUM. -/
def p (d : DSA) : Option Nat :=
  let p0 := (compat.pqg d).getD 0 none
  match p0 with
  | none => none
  | some v => some v

/-- `DsaRef::q`: reads slot 1 of `compat::pqg` and returns `None` for a NULL
pointer, otherwise `Some` of the pointed-to BIGNUM. -/
def q (d : DSA) : Option Nat :=
  let q0 := (compat.pqg d).getD 1 none
  match q0 with
  | none => none
  | some v => some v

/-- `DsaRef::g`: reads slot 2 of `compat::pqg` and returns `None` for a NULL
pointer, otherwise `Some` of the pointed-to BIGNUM. -/
def g (d : DSA) : Option Nat :=
  let g0 := (compat.pqg d).getD 2 none
  match g0 with
  | none => none
  | some v => some v

/-- `DsaRef::has_public_key`: true exactly when slot 0 of `compat::keys` is
non-null. -/
def has_public_key (d : DSA) : Bool :=
  !((compat.keys d).getD 0 none).isNone

/-- `DsaRef::has_private_key`: true exactly when slot 1 of `compat::keys` is
non-null. -/
def has_private_key (d : DSA) : Bool :=
  !((compat.keys d).getD 1 none).isNone

/-- `DsaRef::size`: if `q()` is `Some`, calls the native `DSA_size` (passed
here as the oracle `DSA_size`, a C `int` result cast `as u32`) and wraps it
in `Some`; otherwise returns `None`. -/
def size (DSA_size : DSA → Int) (d : DSA) : Option Nat :=
  if (q d).isSome then some (u32_of_int (DSA_size d)) else none

end DsaRef

/-! ## Socket-select shim (`src/openssl/src/ssl/tests/select.rs`)

Machine arithmetic on the `u32` timeout is modelled on `Nat` with explicit
`% 2^32`; the casts `as libc::time_t` (64-bit signed) and `as c_long`
(32-bit signed on Windows) are modelled as two's-complement
reinterpretations. -/

/-- Cast of a `u32` value to a 64-bit signed integer (`as libc::time_t` /
`as libc::suseconds_t`): always exact since `2^32 < 2^63`. -/
def i64_of_u32 (n : Nat) : Int :=
  ((n % 2 ^ 32 : Nat) : Int)

/-- Cast of a `u32` value to a 32-bit signed integer (`as c_long` on
Windows): two's-complement reinterpretation of the low 32 bits. -/
def i32_of_u32 (n : Nat) : Int :=
  if n % 2 ^ 32 < 2 ^ 31 then ((n % 2 ^ 32 : Nat) : Int)
  else ((n % 2 ^ 32 : Nat) : Int) - 2 ^ 32

/-- `u32` multiplication: wraps modulo `2^32`. -/
def u32_mul (a b : Nat) : Nat :=
  a * b % 2 ^ 32

/-- The native `timeval` structure handed to the polling primitive. -/
structure timeval where
  tv_sec : Int
  tv_usec : Int
deriving DecidableEq, Repr

/-- The `timeval` built by the unix `imp::select`:
`tv_sec = (timeout_ms / 1000) as time_t`,
`tv_usec = (timeout_ms % 1000 * 1000) as suseconds_t`. -/
def unix_timeval (timeout_ms : Nat) : timeval :=
  { tv_sec := i64_of_u32 (timeout_ms / 1000)
  , tv_usec := i64_of_u32 (u32_mul (timeout_ms % 1000) 1000) }

/-- The `timeval` built by the windows `imp::select`:
`tv_sec = (timeout_ms / 1000) as c_long`,
`tv_usec = (timeout_ms % 1000 * 1000) as c_long`. -/
def win_timeval (timeout_ms : Nat) : timeval :=
  { tv_sec := i32_of_u32 (timeout_ms / 1000)
  , tv_usec := i32_of_u32 (u32_mul (timeout_ms % 1000) 1000) }

/-- A record of one invocation of the native polling primitive
(`libc::select` / `ws2_32::select`): the `nfds` argument and the timeout
handed over. -/
inductive NativeSelectCall where
  | call (nfds : Int) (tv : timeval)
deriving DecidableEq, Repr

/-- Oracle for the native polling call: the return code (number of ready
descriptors, `0` on timeout, negative on error) and the thread's last OS
error as read by `io::Error::last_os_error()`. -/
structure SelectOracle where
  ret : Int
  last_os_error : Nat
deriving DecidableEq, Repr

/-- `imp::select` (unix): builds the timeval, performs exactly one native
`libc::select` call with `nfds = max.as_raw_fd() + 1`, and maps the return
code: negative becomes `Err(last_os_error)`, otherwise `Ok(rc != 0)`.
The second component records the native calls performed. -/
def unix_select (o : SelectOracle) (max_fd : Int) (read writ err : Ptr)
    (timeout_ms : Nat) : Except Nat Bool × List NativeSelectCall :=
  let timeout := unix_timeval timeout_ms
  let rc := o.ret
  ( if rc < 0 then Except.error o.last_os_error else Except.ok (rc != 0)
  , [NativeSelectCall.call (max_fd + 1) timeout] )

/-- `imp::select` (windows): builds the timeval, performs exactly one native
`ws2_32::select` call with `nfds = 1` (ignored on Windows), and maps the
return code: negative becomes `Err(last_os_error)`, otherwise `Ok(rc != 0)`. -/
def win_select (o : SelectOracle) (read writ err : Ptr)
    (timeout_ms : Nat) : Except Nat Bool × List NativeSelectCall :=
  let timeout := win_timeval timeout_ms
  let rc := o.ret
  ( if rc < 0 then Except.error o.last_os_error else Except.ok (rc != 0)
  , [NativeSelectCall.call 1 timeout] )

/-- The windows `fd_set` structure: a `u32` count and the socket array.
(The model keeps the array as a list; its length plays the role of
`FD_SETSIZE`.) -/
structure fd_set_win where
  fd_count : Nat
  fd_array : List Nat
deriving DecidableEq, Repr

/-- `imp::fd_set` (windows): writes the raw socket at index `fd_count` of
`fd_array` and then increments `fd_count`.  There is no explicit capacity
check in the code; Rust's implicit array bounds check makes an out-of-range
index a panic, modelled as `none`. -/
def win_fd_set (set : fd_set_win) (sock : Nat) : Option fd_set_win :=
  if set.fd_count < set.fd_array.length then
    some { fd_count := set.fd_count + 1
         , fd_array := set.fd_array.set set.fd_count sock }
  else none


/-! ## CMS adapter (`src/openssl/src/cms.rs`)

Each operation is a sequence of fallible native calls; the values those
calls return in a given execution are collected in an oracle record, and the
wrapper body is translated statement by statement over them. -/

/-- The `CmsContentInfo` owning wrapper: holds the raw native
`CMS_ContentInfo` pointer. -/
structure CmsContentInfo where
  ptr : Ptr
deriving DecidableEq, Repr

/-- Native-call results seen by `CmsContentInfoRef::decrypt`: the
`MemBio::new()` allocation, the `CMS_decrypt` return code, and the bytes in
the output BIO afterwards. -/
structure DecryptOracle where
  bio_new : Ptr
  cms_decrypt_ret : Int
  bio_buf : List Nat
deriving DecidableEq, Repr

/-- `CmsContentInfoRef::decrypt`: allocates an output `MemBio` (fallible,
via `cvt_p` inside `MemBio::new`), runs `CMS_decrypt` through `cvt`, and
only then copies the BIO contents out. -/
def CmsContentInfoRef.decrypt (o : DecryptOracle) (cms : CmsContentInfo)
    (pkey cert : Ptr) : Except ErrorStack (List Nat) := do
  let _out ← cvt_p o.bio_new
  let _ ← cvt o.cms_decrypt_ret
  Except.ok o.bio_buf

/-- Native-call results seen by `CmsContentInfo::smime_read_cms`: the
`MemBioSlice::new(smime)` allocation and the `SMIME_read_CMS` result
pointer. -/
structure SmimeReadOracle where
  bio_new : Ptr
  smime_read_ret : Ptr
deriving DecidableEq, Repr

/-- `CmsContentInfo::smime_read_cms`: wraps the input in a `MemBioSlice`
(fallible), runs `SMIME_read_CMS` through `cvt_p`, and takes ownership of
the returned pointer. -/
def CmsContentInfo.smime_read_cms (o : SmimeReadOracle)
    (smime : List Nat) : Except ErrorStack CmsContentInfo := do
  let _bio ← cvt_p o.bio_new
  let cms ← cvt_p o.smime_read_ret
  Except.ok ⟨cms⟩

/-- Native-call results seen by `CmsContentInfo::sign`: the
`MemBioSlice::new(data)` allocation, the `Stack::<X509>::new()` allocation
(evaluated eagerly by `unwrap_or` even when `certs` is `Some`), and the
`CMS_sign` result pointer. -/
structure SignOracle where
  bio_new : Ptr
  stack_new : Ptr
  cms_sign_ret : Ptr
deriving DecidableEq, Repr

/-- `CmsContentInfo::sign`: wraps the data in a `MemBioSlice` (fallible),
builds the empty fallback stack (fallible), runs `CMS_sign` through `cvt_p`,
and takes ownership of the returned pointer. -/
def CmsContentInfo.sign (o : SignOracle) (signcert pkey : Ptr)
    (certs : Option Ptr) (data : List Nat) (flags : Nat) :
    Except ErrorStack CmsContentInfo := do
  let _data_bio ← cvt_p o.bio_new
  let _fallback_stack ← cvt_p o.stack_new
  let cms ← cvt_p o.cms_sign_ret
  Except.ok ⟨cms⟩

/-- Native-call results seen by `CmsContentInfo::to_der`: the C `int`
returned by the probing `i2d_CMS_ContentInfo(ptr, NULL)` call, the effect of
the second (serializing) call on the allocated buffer, and its (ignored)
return code. -/
structure ToDerOracle where
  i2d_len_ret : Int
  i2d_fill : List Nat → List Nat
  i2d_fill_ret : Int

/-- `CmsContentInfo::to_der`: probes the DER length, allocates a
zero-filled buffer of `size as usize` bytes, lets the second native call
write into it, and returns `Ok` unconditionally — neither native return code
is passed through `cvt`, so no failure is ever propagated. -/
def CmsContentInfo.to_der (o : ToDerOracle) (cms : CmsContentInfo) :
    Except ErrorStack (List Nat) :=
  let size := o.i2d_len_ret
  let der := List.replicate (usize_of_int size) 0
  let der2 := o.i2d_fill der
  Except.ok der2

/-- A concrete execution in which the native serializer signals failure:
`i2d_CMS_ContentInfo` returns `-1` and writes nothing. -/
def to_der_failing_oracle : ToDerOracle :=
  { i2d_len_ret := -1, i2d_fill := fun der => der, i2d_fill_ret := -1 }

/-! ## DSA key generation and PEM import/export -/

/-- The `Dsa` owning wrapper: the raw native `DSA` pointer together with the
native object state it points to. -/
structure Dsa where
  ptr : Ptr
  st : DSA
deriving DecidableEq, Repr

/-- Native-call results seen by `Dsa::generate`: the `DSA_new` allocation,
the `DSA_generate_parameters_ex` and `DSA_generate_key` return codes, and
the native object state after generation. -/
structure DsaGenOracle where
  DSA_new_ret : Ptr
  gen_params_ret : Int
  gen_key_ret : Int
  result_state : DSA
deriving DecidableEq, Repr

/-- `Dsa::generate`: allocates with `DSA_new` through `cvt_p`, then runs
`DSA_generate_parameters_ex` and `DSA_generate_key` through `cvt`, and
returns the owning wrapper. -/
def Dsa.generate (o : DsaGenOracle) (bits : Nat) : Except ErrorStack Dsa := do
  let p ← cvt_p o.DSA_new_ret
  let _ ← cvt o.gen_params_ret
  let _ ← cvt o.gen_key_ret
  Except.ok ⟨p, o.result_state⟩

/-- Modelled from the spec: the postcondition of a successful
`Dsa::generate` — the spec says generation populates the parameters `p`,
`q`, `g` and the key pair; the native `DSA_generate_parameters_ex` /
`DSA_generate_key` implementations are not part of this repository. -/
def DSA.generated (d : DSA) : Prop :=
  d.p.isSome ∧ d.q.isSome ∧ d.g.isSome ∧ d.pub_key.isSome ∧ d.priv_key.isSome

/-- Modelled from the spec: the native private-key PEM writer
`PEM_write_bio_DSAPrivateKey` (invoked by the macro-generated
`DsaRef::private_key_to_pem`; neither the macro body nor the native writer
is among the sources at hand).  The spec lists PEM export among the DSA
adapter's operations; the writer is modelled as a serialization of the five
key components, failing (NULL return) when a component of the private key is
missing. -/
def PEM_write_bio_DSAPrivateKey (d : DSA) : Option (List Nat) :=
  match d.p, d.q, d.g, d.pub_key, d.priv_key with
  | some pv, some qv, some gv, some yv, some xv => some [pv, qv, gv, yv, xv]
  | _, _, _, _, _ => none

/-- Modelled from the spec: the native private-key PEM reader
`PEM_read_bio_DSAPrivateKey` (invoked by the macro-generated
`Dsa::private_key_from_pem`); it parses back exactly what the writer
produces, failing (NULL return) on anything else. -/
def PEM_read_bio_DSAPrivateKey (pem : List Nat) : Option DSA :=
  match pem with
  | [pv, qv, gv, yv, xv] => some ⟨some pv, some qv, some gv, some yv, some xv⟩
  | _ => none

/-- `DsaRef::private_key_to_pem`: runs the native PEM writer on a memory
BIO through `cvt` and returns the BIO contents. -/
def DsaRef.private_key_to_pem (k : Dsa) : Except ErrorStack (List Nat) :=
  match PEM_write_bio_DSAPrivateKey k.st with
  | none => Except.error ⟨0⟩
  | some pem => Except.ok pem

/-- `Dsa::private_key_from_pem`: runs the native PEM reader on a memory BIO
through `cvt_p` and takes ownership of the returned object (a fresh native
allocation, passed here as `DSA_new_ret`). -/
def Dsa.private_key_from_pem (DSA_new_ret : Ptr) (pem : List Nat) :
    Except ErrorStack Dsa :=
  match PEM_read_bio_DSAPrivateKey pem with
  | none => Except.error ⟨0⟩
  | some st => (cvt_p DSA_new_ret).map (fun p => ⟨p, st⟩)

/-- Native-call results seen by the DER key imports (`d2i_DSAPrivateKey` /
`d2i_DSAPublicKey`): the returned object pointer (NULL on parse failure)
and the parsed object state it points to. -/
structure DsaDerImportOracle where
  d2i_ret : Ptr
  parsed : DSA
deriving DecidableEq, Repr

/-- Modelled from the spec: the macro-generated `Dsa::private_key_from_der`
(the macro body is not among the sources at hand; the spec lists DER import
among the DSA adapter's operations): runs the native `d2i_DSAPrivateKey`
through `cvt_p` and takes ownership of the returned object. -/
def Dsa.private_key_from_der (o : DsaDerImportOracle) (der : List Nat) :
    Except ErrorStack Dsa :=
  (cvt_p o.d2i_ret).map (fun p => ⟨p, o.parsed⟩)

/-- Modelled from the spec: the macro-generated `Dsa::public_key_from_der`
(the macro body is not among the sources at hand): runs the native
`d2i_DSAPublicKey` through `cvt_p` and takes ownership of the returned
object. -/
def Dsa.public_key_from_der (o : DsaDerImportOracle) (der : List Nat) :
    Except ErrorStack Dsa :=
  (cvt_p o.d2i_ret).map (fun p => ⟨p, o.parsed⟩)

/-- Native-call results seen by the BIO-based PEM key imports: the
`MemBioSlice::new(buf)` allocation, the pointer returned by the native PEM
reader (NULL on failure), and the parsed object state it points to. -/
structure DsaPemImportOracle where
  bio_new : Ptr
  pem_read_ret : Ptr
  parsed : DSA
deriving DecidableEq, Repr

/-- Modelled from the spec: the macro-generated `Dsa::public_key_from_pem`
(the macro body is not among the sources at hand): wraps the buffer in a
`MemBioSlice` (fallible), runs the native `PEM_read_bio_DSA_PUBKEY` through
`cvt_p`, and takes ownership of the returned object. -/
def Dsa.public_key_from_pem (o : DsaPemImportOracle) (pem : List Nat) :
    Except ErrorStack Dsa := do
  let _bio ← cvt_p o.bio_new
  let d ← cvt_p o.pem_read_ret
  Except.ok ⟨d, o.parsed⟩

/-- `Dsa::private_key_from_pem_cb` (dsa.rs): builds the callback state,
wraps the buffer in a `MemBioSlice` (fallible), runs the native
`PEM_read_bio_DSAPrivateKey` with the password callback through `cvt_p`,
and takes ownership of the returned object. -/
def Dsa.private_key_from_pem_cb (o : DsaPemImportOracle) (buf : List Nat) :
    Except ErrorStack Dsa := do
  let _mem_bio ← cvt_p o.bio_new
  let dsa ← cvt_p o.pem_read_ret
  Except.ok ⟨dsa, o.parsed⟩

/-! ## X.509 store adapter (`src/openssl/src/x509/store.rs`) -/

/-- The `X509StoreBuilder` owning wrapper: holds the raw native
`X509_STORE` pointer. -/
structure X509StoreBuilder where
  ptr : Ptr
deriving DecidableEq, Repr

/-- The `X509Store` owning wrapper: holds the raw native `X509_STORE`
pointer. -/
structure X509Store where
  ptr : Ptr
deriving DecidableEq, Repr

/-- The native certificate-store state: the list of certificates held by
each `X509_STORE` handle. -/
abbrev StoreHeap := Ptr → List Ptr

/-- `X509StoreBuilder::new`: allocates with `X509_STORE_new` through
`cvt_p` and wraps the pointer. -/
def X509StoreBuilder.new (X509_STORE_new_ret : Ptr) :
    Except ErrorStack X509StoreBuilder :=
  (cvt_p X509_STORE_new_ret).map X509StoreBuilder.mk

/-- `X509StoreBuilder::build`: moves the raw pointer into an `X509Store`
and `mem::forget`s the builder.  The body performs no native call, so the
native store state passes through unchanged; the heap is threaded explicitly
to record exactly that. -/
def X509StoreBuilder.build (b : X509StoreBuilder) (heap : StoreHeap) :
    X509Store × StoreHeap :=
  (⟨b.ptr⟩, heap)

/-- `X509StoreBuilderRef::add_cert`: runs `X509_STORE_add_cert` through
`cvt` and discards the success code.  The native call's effect on the store
contents is modelled as appending the certificate on success. -/
def X509StoreBuilderRef.add_cert (ret : Int) (b : X509StoreBuilder)
    (cert : Ptr) (heap : StoreHeap) : Except ErrorStack Unit × StoreHeap :=
  ( (cvt ret).map (fun _ => ())
  , fun h => if 0 < ret ∧ h = b.ptr then heap h ++ [cert] else heap h )

/-- `X509StoreBuilderRef::set_default_paths`: runs
`X509_STORE_set_default_paths` through `cvt` and discards the success
code. -/
def X509StoreBuilderRef.set_default_paths (ret : Int)
    (b : X509StoreBuilder) : Except ErrorStack Unit :=
  (cvt ret).map (fun _ => ())

/-- The complete public API surface of the store module
(`x509/store.rs`), one constructor per `pub fn`. -/
inductive StoreMethod where
  | newBuilder
  | addCert
  | setDefaultPaths
  | build
deriving DecidableEq, Repr

/-- The receiver through which each store-module method is reached. -/
inductive StoreReceiver where
  | staticAssoc
  | builderRef
  | builderOwned
  | storeRef
deriving DecidableEq, Repr

/-- Receiver of each store-module method, read off the source
signatures. -/
def StoreMethod.receiver : StoreMethod → StoreReceiver
  | .newBuilder => .staticAssoc
  | .addCert => .builderRef
  | .setDefaultPaths => .builderRef
  | .build => .builderOwned

/-- Whether the method can change the certificate contents of an existing
native store. -/
def StoreMethod.mutatesContents : StoreMethod → Bool
  | .newBuilder => false
  | .addCert => true
  | .setDefaultPaths => true
  | .build => false

/-! ## Ownership model

Foreign-handle ownership is modelled as a small event trace: a successful
constructor allocates a handle and creates its sole owning wrapper;
`X509StoreBuilder::build` transfers ownership (the store takes the raw
pointer, `mem::forget` suppresses the builder's destructor, so the owner
count is unchanged); a drop of the owning wrapper frees the handle. -/

/-- One ownership-relevant event in a wrapper's life. -/
inductive OwnEvent where
  | alloc (h : Ptr)
  | transfer (h : Ptr)
  | free (h : Ptr)
deriving DecidableEq, Repr

/-- Number of owning wrappers of handle `h` after the events `tr`. -/
def ownerCount (tr : List OwnEvent) (h : Ptr) : Int :=
  tr.foldl
    (fun n e =>
      match e with
      | .alloc h2 => if h2 = h then n + 1 else n
      | .transfer _ => n
      | .free h2 => if h2 = h then n - 1 else n)
    0

/-- Number of times handle `h` is freed in the events `tr`. -/
def freeCount (tr : List OwnEvent) (h : Ptr) : Nat :=
  tr.foldl
    (fun n e =>
      match e with
      | .free h2 => if h2 = h then n + 1 else n
      | _ => n)
    0

/-- The two possible lifecycles of an X.509-store handle through this
module: the builder is dropped directly, or `build` transfers ownership to
the store, which is eventually dropped. -/
inductive StoreLifecycle where
  | dropBuilder
  | buildThenDropStore
deriving DecidableEq, Repr

/-- Ownership trace of one store lifecycle for handle `h`
(`X509_STORE_free` is the registered destructor of both wrapper types). -/
def storeTrace : StoreLifecycle → Ptr → List OwnEvent
  | .dropBuilder, h => [.alloc h, .free h]
  | .buildThenDropStore, h => [.alloc h, .transfer h, .free h]

/-- Ownership trace of a CMS content-info or DSA key handle: a successful
constructor allocates, the wrapper's drop (`CMS_ContentInfo_free` /
`DSA_free`) frees; no other operation moves the pointer. -/
def singleOwnerTrace (h : Ptr) : List OwnEvent :=
  [.alloc h, .free h]

/-- A concrete generated DSA key used to instantiate universally quantified
results. -/
def sampleDsa : Dsa :=
  ⟨1, ⟨some 3, some 5, some 7, some 11, some 13⟩⟩

/-! ## Helper lemmas -/

lemma i64_of_u32_eq_of_lt (n : Nat) (h : n < 2 ^ 32) : i64_of_u32 n = n := by
  unfold i64_of_u32
  rw [Nat.mod_eq_of_lt h]

lemma i32_of_u32_eq_of_lt (n : Nat) (h : n < 2 ^ 31) : i32_of_u32 n = n := by
  have h32 : n < 2 ^ 32 := lt_trans h (by norm_num)
  simp [i32_of_u32, Nat.mod_eq_of_lt h32]
  omega

lemma u32_mul_eq_of_lt (a b : Nat) (h : a * b < 2 ^ 32) : u32_mul a b = a * b := by
  unfold u32_mul
  exact Nat.mod_eq_of_lt h

lemma cvt_p_eq_ok_iff (r p : Ptr) : cvt_p r = Except.ok p ↔ r ≠ 0 ∧ p = r := by
  unfold cvt_p
  by_cases h : r = 0 <;> simp [h, eq_comm]

lemma cvt_eq_ok_iff (r v : Int) : cvt r = Except.ok v ↔ 0 < r ∧ v = r := by
  unfold cvt
  by_cases h : r ≤ 0 <;> simp [h, eq_comm] <;> omega

lemma except_bind_ok {ε α β : Type} (x : Except ε α) (f : α → Except ε β)
    (b : β) : x >>= f = Except.ok b ↔ ∃ a, x = Except.ok a ∧ f a = Except.ok b := by
  cases x <;> simp [Bind.bind, Except.bind]

lemma dsaRef_p_proj (d : DSA) : DsaRef.p d = d.p := by
  cases h : d.p <;> simp [DsaRef.p, compat.pqg, h]

lemma dsaRef_q_proj (d : DSA) : DsaRef.q d = d.q := by
  cases h : d.q <;> simp [DsaRef.q, compat.pqg, h]

lemma dsaRef_g_proj (d : DSA) : DsaRef.g d = d.g := by
  cases h : d.g <;> simp [DsaRef.g, compat.pqg, h]

lemma dsaRef_pub_proj (d : DSA) : DsaRef.has_public_key d = d.pub_key.isSome := by
  cases h : d.pub_key <;> simp [DsaRef.has_public_key, compat.keys, h]

lemma dsaRef_priv_proj (d : DSA) : DsaRef.has_private_key d = d.priv_key.isSome := by
  cases h : d.priv_key <;> simp [DsaRef.has_private_key, compat.keys, h]

/-! ## Claim theorems -/

/-- C1 (refuting evaluation): at an execution where the native
`i2d_CMS_ContentInfo` call signals failure (returns `-1`), `to_der` still
returns `Ok` — the failure is not propagated as `Err(ErrorStack)`, and the
value returned is the silently defaulted zero-filled buffer (of wrapped
length `usize_of_int (-1) = 2^64 - 1`, since the negative length is cast
`as usize`). -/
theorem c1_to_der_ignores_native_failure :
    to_der_failing_oracle.i2d_len_ret ≤ 0 ∧
    CmsContentInfo.to_der to_der_failing_oracle ⟨1⟩ =
      Except.ok (List.replicate (usize_of_int (-1)) 0) ∧
    usize_of_int (-1) = 2 ^ 64 - 1 :=
  ⟨by decide, rfl, by decide⟩

/-- C6: for every `u32` timeout, both shims hand the native polling call the
exact caller-specified timeout: `tv_sec = timeout_ms / 1000`,
`tv_usec = (timeout_ms mod 1000) * 1000`, hence
`tv_sec * 1000000 + tv_usec = timeout_ms * 1000` microseconds, with no
overflow or truncation in either cast. -/
theorem c6_timeout_conversion (timeout_ms : Nat) (h : timeout_ms < 2 ^ 32) :
    (unix_timeval timeout_ms).tv_sec = ((timeout_ms / 1000 : Nat) : Int) ∧
    (unix_timeval timeout_ms).tv_usec = ((timeout_ms % 1000 * 1000 : Nat) : Int) ∧
    win_timeval timeout_ms = unix_timeval timeout_ms ∧
    (unix_timeval timeout_ms).tv_sec * 1000000 + (unix_timeval timeout_ms).tv_usec =
      (timeout_ms : Int) * 1000 := by
  have hdiv : timeout_ms / 1000 < 2 ^ 31 := by omega
  have hdiv32 : timeout_ms / 1000 < 2 ^ 32 := by omega
  have hmul : timeout_ms % 1000 * 1000 < 2 ^ 31 := by
    have := Nat.mod_lt timeout_ms (show 0 < 1000 by norm_num)
    omega
  have hmul32 : timeout_ms % 1000 * 1000 < 2 ^ 32 := by omega
  have hu : u32_mul (timeout_ms % 1000) 1000 = timeout_ms % 1000 * 1000 :=
    u32_mul_eq_of_lt _ _ hmul32
  have hsec : (unix_timeval timeout_ms).tv_sec = ((timeout_ms / 1000 : Nat) : Int) := by
    simp [unix_timeval, i64_of_u32_eq_of_lt _ hdiv32]
  have husec : (unix_timeval timeout_ms).tv_usec = ((timeout_ms % 1000 * 1000 : Nat) : Int) := by
    simp [unix_timeval, hu, i64_of_u32_eq_of_lt _ hmul32]
  refine ⟨hsec, husec, ?_, ?_⟩
  · simp [win_timeval, unix_timeval, hu, i32_of_u32_eq_of_lt _ hdiv,
      i64_of_u32_eq_of_lt _ hdiv32, i32_of_u32_eq_of_lt _ hmul,
      i64_of_u32_eq_of_lt _ hmul32]
  · rw [hsec, husec]
    push_cast
    omega

/-- Witness for C6 at the largest `u32` timeout. -/
theorem c6_timeout_conversion_witness :
    (4294967295 : Nat) < 2 ^ 32 ∧
    (unix_timeval 4294967295).tv_sec * 1000000 + (unix_timeval 4294967295).tv_usec =
      (4294967295 : Int) * 1000 :=
  ⟨by norm_num, (c6_timeout_conversion 4294967295 (by norm_num)).2.2.2⟩

/-- C2: each shim's `select` is a direct pass-through to a single native
polling call carrying the caller's timeout: the result is `Ok true` exactly
when the native call reported at least one ready descriptor, `Ok false`
exactly when it reported a timeout with none ready, and `Err` with the last
OS error exactly when the native return code was negative; the recorded
native-call trace is exactly one polling call with the converted timeout
(no retry, buffering, or rescheduling). -/
theorem c2_select_passthrough (o : SelectOracle) (max_fd : Int)
    (r w e : Ptr) (timeout_ms : Nat) (ready : Int)
    (hready : 0 ≤ o.ret → o.ret = ready) :
    ((unix_select o max_fd r w e timeout_ms).1 = Except.ok true ↔
        0 ≤ o.ret ∧ 0 < ready) ∧
    ((unix_select o max_fd r w e timeout_ms).1 = Except.ok false ↔
        0 ≤ o.ret ∧ ready = 0) ∧
    ((unix_select o max_fd r w e timeout_ms).1 = Except.error o.last_os_error ↔
        o.ret < 0) ∧
    (unix_select o max_fd r w e timeout_ms).2 =
      [NativeSelectCall.call (max_fd + 1) (unix_timeval timeout_ms)] ∧
    ((win_select o r w e timeout_ms).1 = Except.ok true ↔
        0 ≤ o.ret ∧ 0 < ready) ∧
    ((win_select o r w e timeout_ms).1 = Except.ok false ↔
        0 ≤ o.ret ∧ ready = 0) ∧
    ((win_select o r w e timeout_ms).1 = Except.error o.last_os_error ↔
        o.ret < 0) ∧
    (win_select o r w e timeout_ms).2 =
      [NativeSelectCall.call 1 (win_timeval timeout_ms)] := by
  by_cases hneg : o.ret < 0
  · refine ⟨?_, ?_, ?_, rfl, ?_, ?_, ?_, rfl⟩ <;>
      simp [unix_select, win_select, hneg] <;> omega
  · push_neg at hneg
    have hr := hready hneg
    subst hr
    refine ⟨?_, ?_, ?_, rfl, ?_, ?_, ?_, rfl⟩ <;>
      simp [unix_select, win_select, not_lt.mpr hneg, bne_iff_ne] <;>
      omega

/-- Witness for C2 at a concrete oracle reporting two ready descriptors. -/
theorem c2_select_passthrough_witness :
    (unix_select ⟨2, 7⟩ 3 1 1 1 500).1 = Except.ok true ∧
    (win_select ⟨2, 7⟩ 1 1 1 500).1 = Except.ok true := by
  have h := c2_select_passthrough ⟨2, 7⟩ 3 1 1 1 500 2 (fun _ => rfl)
  exact ⟨h.1.mpr (by norm_num), h.2.2.2.2.1.mpr (by norm_num)⟩

/-- C9: on Windows, `fd_set` writes the socket at index `fd_count`,
increments `fd_count` by exactly one, and leaves all entries below the old
`fd_count` (indeed, all other entries) unchanged; it performs no capacity
check, so the write is in bounds (non-panicking) exactly under the
precondition `fd_count < fd_array` capacity. -/
theorem c9_win_fd_set (s : fd_set_win) (sock : Nat) :
    (s.fd_count < s.fd_array.length →
      ∃ s2, win_fd_set s sock = some s2 ∧
        s2.fd_count = s.fd_count + 1 ∧
        s2.fd_array.length = s.fd_array.length ∧
        s2.fd_array.getD s.fd_count 0 = sock ∧
        ∀ i, i < s.fd_count → s2.fd_array.getD i 0 = s.fd_array.getD i 0) ∧
    (¬ s.fd_count < s.fd_array.length → win_fd_set s sock = none) := by
  constructor
  · intro h
    refine ⟨⟨s.fd_count + 1, s.fd_array.set s.fd_count sock⟩,
      by simp [win_fd_set, h], rfl, by simp, ?_, ?_⟩
    · simp only [List.getD]
      rw [List.get?_set_eq_of_lt _ h]
      rfl
    · intro i hi
      simp only [List.getD]
      rw [List.get?_set_ne]
      omega
  · intro h
    simp [win_fd_set, h]

/-- Witness for C9: an in-bounds insertion and an at-capacity panic. -/
theorem c9_win_fd_set_witness :
    win_fd_set ⟨1, [5, 0]⟩ 9 = some ⟨2, [5, 9]⟩ ∧
    win_fd_set ⟨2, [5, 9]⟩ 4 = none :=
  ⟨by decide, (c9_win_fd_set ⟨2, [5, 9]⟩ 4).2 (by decide)⟩

/-- C3: along every lifecycle this module produces for a handle, the handle
has exactly one owning wrapper at every point while it is allocated and none
after its single free — in particular `X509StoreBuilder::build` transfers
ownership (same raw pointer, owner count unchanged by the
`transfer` step) — and the borrowed views `p`, `q`, `g` are projections of
the owning wrapper's underlying object, so they exist only relative to it. -/
theorem c3_single_owner :
    (∀ (lc : StoreLifecycle) (h : Ptr) (k : Nat),
      k ≤ (storeTrace lc h).length →
        ownerCount ((storeTrace lc h).take k) h =
          if 0 < k ∧ k < (storeTrace lc h).length then 1 else 0) ∧
    (∀ (lc : StoreLifecycle) (h : Ptr), freeCount (storeTrace lc h) h = 1) ∧
    (∀ (h : Ptr) (k : Nat),
      k ≤ (singleOwnerTrace h).length →
        ownerCount ((singleOwnerTrace h).take k) h =
          if 0 < k ∧ k < (singleOwnerTrace h).length then 1 else 0) ∧
    (∀ h : Ptr, freeCount (singleOwnerTrace h) h = 1) ∧
    (∀ (b : X509StoreBuilder) (heap : StoreHeap),
      (X509StoreBuilder.build b heap).1.ptr = b.ptr) ∧
    (∀ d : DSA, DsaRef.p d = d.p ∧ DsaRef.q d = d.q ∧ DsaRef.g d = d.g) := by
  refine ⟨?_, ?_, ?_, ?_, fun b heap => rfl,
    fun d => ⟨dsaRef_p_proj d, dsaRef_q_proj d, dsaRef_g_proj d⟩⟩
  · intro lc h k hk
    cases lc <;> simp only [storeTrace, List.length] at hk <;>
      interval_cases k <;> simp [storeTrace, ownerCount]
  · intro lc h
    cases lc <;> simp [storeTrace, freeCount]
  · intro h k hk
    simp only [singleOwnerTrace, List.length] at hk
    interval_cases k <;> simp [singleOwnerTrace, ownerCount]
  · intro h
    simp [singleOwnerTrace, freeCount]

/-- Witness for C3: the owner count after allocation and transfer in the
build lifecycle is exactly one. -/
theorem c3_single_owner_witness :
    ownerCount ((storeTrace StoreLifecycle.buildThenDropStore 7).take 2) 7 = 1 := by
  have h := c3_single_owner.1 StoreLifecycle.buildThenDropStore 7 2 (by decide)
  simpa using h

/-- C4: the DSA parameter accessors `p`, `q`, `g` return `Some` of exactly
the corresponding component of the underlying key when that component is
set and `None` when it is NULL, and the key-presence queries
`has_public_key` and `has_private_key` are true exactly when the
corresponding key component is present. -/
theorem c4_dsa_accessors (d : DSA) :
    DsaRef.p d = d.p ∧ DsaRef.q d = d.q ∧ DsaRef.g d = d.g ∧
    DsaRef.has_public_key d = d.pub_key.isSome ∧
    DsaRef.has_private_key d = d.priv_key.isSome :=
  ⟨dsaRef_p_proj d, dsaRef_q_proj d, dsaRef_g_proj d,
   dsaRef_pub_proj d, dsaRef_priv_proj d⟩

/-- C5: exporting a successfully generated private key with the
private-key PEM export and re-importing the bytes with the private-key
PEM import succeeds and yields a key with the same `p`, `q`, `g`
parameters and the same public- and private-key values. -/
theorem c5_pem_roundtrip (k : Dsa) (fresh : Ptr)
    (hgen : DSA.generated k.st) (hfresh : fresh ≠ 0) :
    ∃ pem k2,
      DsaRef.private_key_to_pem k = Except.ok pem ∧
      Dsa.private_key_from_pem fresh pem = Except.ok k2 ∧
      DsaRef.p k2.st = DsaRef.p k.st ∧
      DsaRef.q k2.st = DsaRef.q k.st ∧
      DsaRef.g k2.st = DsaRef.g k.st ∧
      k2.st.pub_key = k.st.pub_key ∧
      k2.st.priv_key = k.st.priv_key := by
  obtain ⟨hp, hq, hg, hy, hx⟩ := hgen
  obtain ⟨pv, hp⟩ := Option.isSome_iff_exists.mp hp
  obtain ⟨qv, hq⟩ := Option.isSome_iff_exists.mp hq
  obtain ⟨gv, hg⟩ := Option.isSome_iff_exists.mp hg
  obtain ⟨yv, hy⟩ := Option.isSome_iff_exists.mp hy
  obtain ⟨xv, hx⟩ := Option.isSome_iff_exists.mp hx
  refine ⟨[pv, qv, gv, yv, xv],
    ⟨fresh, ⟨some pv, some qv, some gv, some yv, some xv⟩⟩,
    ?_, ?_, ?_, ?_, ?_, ?_, ?_⟩
  · simp [DsaRef.private_key_to_pem, PEM_write_bio_DSAPrivateKey,
      hp, hq, hg, hy, hx]
  · simp [Dsa.private_key_from_pem, PEM_read_bio_DSAPrivateKey,
      cvt_p, hfresh, Except.map]
  · simp [dsaRef_p_proj, hp]
  · simp [dsaRef_q_proj, hq]
  · simp [dsaRef_g_proj, hg]
  · simp [hy]
  · simp [hx]

/-- Witness for C5 at the concrete generated key `sampleDsa`. -/
theorem c5_pem_roundtrip_witness :
    DSA.generated sampleDsa.st ∧ (2 : Ptr) ≠ 0 ∧
    ∃ pem k2,
      DsaRef.private_key_to_pem sampleDsa = Except.ok pem ∧
      Dsa.private_key_from_pem 2 pem = Except.ok k2 ∧
      DsaRef.p k2.st = DsaRef.p sampleDsa.st ∧
      DsaRef.q k2.st = DsaRef.q sampleDsa.st ∧
      DsaRef.g k2.st = DsaRef.g sampleDsa.st ∧
      k2.st.pub_key = sampleDsa.st.pub_key ∧
      k2.st.priv_key = sampleDsa.st.priv_key :=
  ⟨⟨rfl, rfl, rfl, rfl, rfl⟩, by decide,
   c5_pem_roundtrip sampleDsa 2 ⟨rfl, rfl, rfl, rfl, rfl⟩ (by decide)⟩

/-- C7: `build` consumes the builder and returns an `X509Store` wrapping
the same underlying store handle, performing no native call (so the
certificate contents of every native store are unchanged); every
contents-mutating method of the store module is reached through the
builder, and no method of the module takes the built `X509Store` as
receiver, so a built store is immutable through this interface. -/
theorem c7_built_store_immutable :
    (∀ (b : X509StoreBuilder) (heap : StoreHeap),
      (X509StoreBuilder.build b heap).1.ptr = b.ptr ∧
      (X509StoreBuilder.build b heap).2 = heap) ∧
    (∀ m : StoreMethod, m.mutatesContents = true →
      m.receiver = StoreReceiver.builderRef) ∧
    (∀ m : StoreMethod, m.receiver ≠ StoreReceiver.storeRef) := by
  refine ⟨fun b heap => ⟨rfl, rfl⟩, ?_, ?_⟩
  · intro m hm
    cases m <;> simp_all [StoreMethod.receiver, StoreMethod.mutatesContents]
  · intro m
    cases m <;> simp [StoreMethod.receiver]

/-- Witness for C7 at a concrete builder and the `add_cert` method. -/
theorem c7_built_store_immutable_witness :
    (X509StoreBuilder.build ⟨5⟩ (fun _ => [])).1.ptr = 5 ∧
    StoreMethod.addCert.receiver = StoreReceiver.builderRef :=
  ⟨(c7_built_store_immutable.1 ⟨5⟩ (fun _ => [])).1,
   c7_built_store_immutable.2.1 StoreMethod.addCert rfl⟩

/-- C8: every wrapper a constructor returns successfully holds a non-null
native handle (`smime_read_cms`, `sign`, `generate`, every PEM/DER
key import, namely `private_key_from_pem`, `private_key_from_der`,
`public_key_from_pem`, `public_key_from_der`, `private_key_from_pem_cb`,
and `X509StoreBuilder::new`), and `build` — the only operation that
produces a wrapper from a wrapper — preserves the stored pointer. -/
theorem c8_nonnull_handles :
    (∀ (o : SmimeReadOracle) (smime : List Nat) (c : CmsContentInfo),
      CmsContentInfo.smime_read_cms o smime = Except.ok c → c.ptr ≠ 0) ∧
    (∀ (o : SignOracle) (signcert pkey : Ptr) (certs : Option Ptr)
        (data : List Nat) (flags : Nat) (c : CmsContentInfo),
      CmsContentInfo.sign o signcert pkey certs data flags = Except.ok c →
        c.ptr ≠ 0) ∧
    (∀ (o : DsaGenOracle) (bits : Nat) (d : Dsa),
      Dsa.generate o bits = Except.ok d → d.ptr ≠ 0) ∧
    (∀ (r : Ptr) (pem : List Nat) (d : Dsa),
      Dsa.private_key_from_pem r pem = Except.ok d → d.ptr ≠ 0) ∧
    (∀ (o : DsaDerImportOracle) (der : List Nat) (d : Dsa),
      Dsa.private_key_from_der o der = Except.ok d → d.ptr ≠ 0) ∧
    (∀ (o : DsaDerImportOracle) (der : List Nat) (d : Dsa),
      Dsa.public_key_from_der o der = Except.ok d → d.ptr ≠ 0) ∧
    (∀ (o : DsaPemImportOracle) (pem : List Nat) (d : Dsa),
      Dsa.public_key_from_pem o pem = Except.ok d → d.ptr ≠ 0) ∧
    (∀ (o : DsaPemImportOracle) (buf : List Nat) (d : Dsa),
      Dsa.private_key_from_pem_cb o buf = Except.ok d → d.ptr ≠ 0) ∧
    (∀ (r : Ptr) (b : X509StoreBuilder),
      X509StoreBuilder.new r = Except.ok b → b.ptr ≠ 0) ∧
    (∀ (b : X509StoreBuilder) (heap : StoreHeap),
      (X509StoreBuilder.build b heap).1.ptr = b.ptr) := by
  refine ⟨?_, ?_, ?_, ?_, ?_, ?_, ?_, ?_, ?_, fun b heap => rfl⟩
  · intro o smime c h
    unfold CmsContentInfo.smime_read_cms at h
    rw [except_bind_ok] at h
    obtain ⟨a, -, h⟩ := h
    rw [except_bind_ok] at h
    obtain ⟨cms, hcms, h⟩ := h
    rw [cvt_p_eq_ok_iff] at hcms
    obtain ⟨hne, rfl⟩ := hcms
    injection h with h
    rw [← h]
    simpa using hne
  · intro o signcert pkey certs data flags c h
    unfold CmsContentInfo.sign at h
    rw [except_bind_ok] at h
    obtain ⟨a, -, h⟩ := h
    rw [except_bind_ok] at h
    obtain ⟨b, -, h⟩ := h
    rw [except_bind_ok] at h
    obtain ⟨cms, hcms, h⟩ := h
    rw [cvt_p_eq_ok_iff] at hcms
    obtain ⟨hne, rfl⟩ := hcms
    injection h with h
    rw [← h]
    simpa using hne
  · intro o bits d h
    unfold Dsa.generate at h
    rw [except_bind_ok] at h
    obtain ⟨p, hp, h⟩ := h
    rw [except_bind_ok] at h
    obtain ⟨x, -, h⟩ := h
    rw [except_bind_ok] at h
    obtain ⟨y, -, h⟩ := h
    rw [cvt_p_eq_ok_iff] at hp
    obtain ⟨hne, rfl⟩ := hp
    injection h with h
    rw [← h]
    simpa using hne
  · intro r pem d h
    unfold Dsa.private_key_from_pem at h
    cases hread : PEM_read_bio_DSAPrivateKey pem with
    | none => rw [hread] at h; exact absurd h (by simp)
    | some st =>
      rw [hread] at h
      unfold cvt_p at h
      by_cases hr : r = 0
      · rw [if_pos hr] at h
        exact absurd h (by simp [Except.map])
      · rw [if_neg hr] at h
        simp only [Except.map] at h
        injection h with h
        rw [← h]
        simpa using hr
  · intro o der d h
    unfold Dsa.private_key_from_der cvt_p at h
    by_cases hr : o.d2i_ret = 0
    · rw [if_pos hr] at h
      exact absurd h (by simp [Except.map])
    · rw [if_neg hr] at h
      simp only [Except.map] at h
      injection h with h
      rw [← h]
      simpa using hr
  · intro o der d h
    unfold Dsa.public_key_from_der cvt_p at h
    by_cases hr : o.d2i_ret = 0
    · rw [if_pos hr] at h
      exact absurd h (by simp [Except.map])
    · rw [if_neg hr] at h
      simp only [Except.map] at h
      injection h with h
      rw [← h]
      simpa using hr
  · intro o pem d h
    unfold Dsa.public_key_from_pem at h
    rw [except_bind_ok] at h
    obtain ⟨a, -, h⟩ := h
    rw [except_bind_ok] at h
    obtain ⟨p, hp, h⟩ := h
    rw [cvt_p_eq_ok_iff] at hp
    obtain ⟨hne, rfl⟩ := hp
    injection h with h
    rw [← h]
    simpa using hne
  · intro o buf d h
    unfold Dsa.private_key_from_pem_cb at h
    rw [except_bind_ok] at h
    obtain ⟨a, -, h⟩ := h
    rw [except_bind_ok] at h
    obtain ⟨p, hp, h⟩ := h
    rw [cvt_p_eq_ok_iff] at hp
    obtain ⟨hne, rfl⟩ := hp
    injection h with h
    rw [← h]
    simpa using hne
  · intro r b h
    unfold X509StoreBuilder.new cvt_p at h
    by_cases hr : r = 0
    · rw [if_pos hr] at h
      exact absurd h (by simp [Except.map])
    · rw [if_neg hr] at h
      simp only [Except.map] at h
      injection h with h
      rw [← h]
      exact hr

/-- Witness for C8: a successful concrete `generate` yields a non-null
handle. -/
theorem c8_nonnull_handles_witness :
    Dsa.generate ⟨1, 1, 1, sampleDsa.st⟩ 2048 = Except.ok ⟨1, sampleDsa.st⟩ ∧
    (1 : Ptr) ≠ 0 :=
  ⟨rfl,
   c8_nonnull_handles.2.2.1 ⟨1, 1, 1, sampleDsa.st⟩ 2048 ⟨1, sampleDsa.st⟩ rfl⟩

/-- C10: `size()` returns `None` exactly when `q()` returns `None`, and
returns `Some` of the native `DSA_size` result (cast to `u32`) whenever
`q()` returns `Some`. -/
theorem c10_dsa_size (DSA_size : DSA → Int) (d : DSA) :
    (DsaRef.size DSA_size d = none ↔ DsaRef.q d = none) ∧
    (∀ v, DsaRef.q d = some v →
      DsaRef.size DSA_size d = some (u32_of_int (DSA_size d))) := by
  constructor
  · cases h : DsaRef.q d <;> simp [DsaRef.size, h]
  · intro v hv
    simp [DsaRef.size, hv]

/-- Witness for C10 at a concrete key with `q` present. -/
theorem c10_dsa_size_witness :
    DsaRef.size (fun _ => (20 : Int)) ⟨some 3, some 5, some 7, none, none⟩ =
      some (u32_of_int 20) := by
  exact (c10_dsa_size (fun _ => (20 : Int))
    ⟨some 3, some 5, some 7, none, none⟩).2 5 (by decide)

end RustOpenSSL
